import Mathlib

/-!
Verification of the request-processing core of the Project-management-AI-agent
repository (files `ai_assistant_agent.py` and `m365_client.py`).

The embedding is shallow:
* Python `dict`/`list`/JSON values are modelled by the inductive type `Json`.
* The Python stdlib functions `json.loads` and `json.dumps` are external
  library code; they are modelled as function parameters (`loads`, `dumps`)
  of the operations that use them.  `json.loads` ignores leading and trailing
  whitespace, so both call sites (`json.loads(text)` inside
  `_is_tool_call` after `text.strip()`, and `json.loads(response_text)`
  inside `process_request`) are modelled as `loads` applied to the trimmed
  text.
* HTTP traffic (the `requests` library) is modelled by oracles of type
  `HttpOutcome`: either a transport-level exception (`err`, which in Python
  propagates out of the un-guarded `requests.*` call) or a response with a
  status code and an already-decoded typed body.
* A raised (and not caught) Python exception is modelled as `Except.error`.
* Side effects that the claims count (outbound API calls, completion calls,
  appended history messages) are returned explicitly as logs.
-/

/-- JSON values / Python objects produced by `json.loads`. -/
inductive Json where
  | null
  | bool (b : Bool)
  | num (n : Int)
  | str (s : String)
  | arr (xs : List Json)
  | obj (kvs : List (String × Json))
deriving Repr

/-- Python `repr` of a `json.loads` value (up to string-escaping inside
string literals, which no spec claim exercises). -/
def pyRepr : Json → String
  | .null => "None"
  | .bool true => "True"
  | .bool false => "False"
  | .num n => toString n
  | .str s => "\x27" ++ s ++ "\x27"
  | .arr xs => "[" ++ String.intercalate ", " (xs.attach.map fun x => pyRepr x.1) ++ "]"
  | .obj kvs =>
      "\x7b" ++
        String.intercalate ", "
          (kvs.attach.map fun p => "\x27" ++ p.1.1 ++ "\x27: " ++ pyRepr p.1.2) ++
      "\x7d"
decreasing_by
  · simp_wf
    have := List.sizeOf_lt_of_mem x.2
    omega
  · simp_wf
    obtain ⟨⟨k, v⟩, hm⟩ := p
    have := List.sizeOf_lt_of_mem hm
    simp [Prod.mk.sizeOf_spec] at this ⊢
    omega

/-- Python `str()` / f-string formatting of a `json.loads` value
(`str` of a `str` is the string itself; containers use `repr`). -/
def pyFormat : Json → String
  | .str s => s
  | j => pyRepr j

/-- Python `d.get(k)` on a dict: the value stored under `k`, if any.
`json.loads` never produces duplicate keys, so first-match lookup is exact. -/
def dictGet (kvs : List (String × Json)) (k : String) : Option Json :=
  (kvs.find? fun p => p.1 = k).map fun p => p.2

/-- Python `k in data` for `data` a `json.loads` value, as used inside the
bare `try`/`except` of `_is_tool_call`: key membership on a dict, element
membership on a list, substring test on a string; the `TypeError` raised on
the remaining types is swallowed by the bare `except`, yielding `False`. -/
def pyIn (k : String) : Json → Bool
  | .obj kvs => kvs.any fun p => p.1 = k
  | .arr xs => xs.any fun j => match j with | .str s => s = k | _ => false
  | .str s => (s.splitOn k).length ≥ 2
  | _ => false

/-- Python `text.strip()`: drop leading and trailing whitespace
(character-list based so that it evaluates inside the kernel). -/
def pyStrip (s : String) : String :=
  String.mk (((s.data.dropWhile Char.isWhitespace).reverse.dropWhile
    Char.isWhitespace).reverse)

/-- Python `s.startswith(pre)`. -/
def strStartsWith (s pre : String) : Bool :=
  pre.data.isPrefixOf s.data

/-- Python `s.endswith(suf)`. -/
def strEndsWith (s suf : String) : Bool :=
  suf.data.isSuffixOf s.data

/-- A chat message (`{"role": ..., "content": ...}`). -/
structure Message where
  role : String
  content : String
deriving Repr, DecidableEq

/-- `PersonalAssistant._is_tool_call`: strip the text, require it to start
with `{` and end with `}`, parse it, and test for a `tool` key; every
failure path returns `False`.  `loads` models `json.loads` (returning
`none` where Python raises `json.JSONDecodeError`). -/
def is_tool_call (loads : String → Option Json) (text : String) : Bool :=
  let t := pyStrip text
  if strStartsWith t "\x7b" && strEndsWith t "\x7d" then
    match loads t with
    | some data => pyIn "tool" data
    | none => false
  else
    false

/-- Python `==` between an arbitrary `json.loads` value and a string literal
(as in `function_name == "get_emails"`): true only for an equal string. -/
def jsonStrEq (j : Json) (s : String) : Bool :=
  match j with
  | .str t => t = s
  | _ => false

/-- The Python type name of a `json.loads` value, as it appears in
`AttributeError`/`TypeError` messages. -/
def pyTypeName : Json → String
  | .null => "NoneType"
  | .bool _ => "bool"
  | .num _ => "int"
  | .str _ => "str"
  | .arr _ => "list"
  | .obj _ => "dict"

/-- `str(AttributeError)` for `x.get(...)` on a non-dict value `x`. -/
def pyNoGetMsg (j : Json) : String :=
  "\x27" ++ pyTypeName j ++ "\x27 object has no attribute \x27get\x27"

/-- `str(TypeError)` for `x[key]` subscripting on a non-dict value `x`
(message text as in CPython 3.11; no claim depends on its exact wording). -/
def pySubscriptMsg (j : Json) : String :=
  pyTypeName j ++ " indices must not be str"

/-- The `{"error": msg}` dict built by the error paths. -/
def errObj (msg : String) : Json :=
  .obj [("error", .str msg)]

/-- One outbound call to the `M365Client`, as observed by the claims that
count remote-API traffic at the assistant level. -/
inductive ApiEvent where
  | getEmails (limit : Json) (filter : Option Json)
  | sendEmail (toAddr subject body : Json)
  | getTasks (planId filter : Option Json)
  | createTask (planId title : Json) (description dueDate : Option Json)

/-- The `M365Client` as seen from `PersonalAssistant.execute_tool`: four
operations returning a Python dict (`Json`).  The client's internals are
modelled separately below, against HTTP oracles. -/
structure M365 where
  get_emails : Json → Option Json → Json
  send_email : Json → Json → Json → Json
  get_tasks : Option Json → Option Json → Json
  create_task : Json → Json → Option Json → Option Json → Json

/-- `PersonalAssistant.execute_tool`.  The whole body runs under
`try ... except Exception as e: return {"error": str(e)}`, so a missing
required key (`arguments['to']` raising `KeyError('to')`, whose `str` is
`'to'`) or `.get`/`[...]` on a non-dict `arguments` becomes an error dict.
The second component logs the M365 operations actually invoked. -/
def execute_tool (m : M365) (function_name arguments : Json) : Json × List ApiEvent :=
  if jsonStrEq function_name "get_emails" then
    match arguments with
    | .obj kvs =>
        let limit := (dictGet kvs "limit").getD (.num 10)
        let filt := dictGet kvs "filter"
        (m.get_emails limit filt, [.getEmails limit filt])
    | other => (errObj (pyNoGetMsg other), [])
  else if jsonStrEq function_name "send_email" then
    match arguments with
    | .obj kvs =>
        match dictGet kvs "to" with
        | none => (errObj "\x27to\x27", [])
        | some toAddr =>
          match dictGet kvs "subject" with
          | none => (errObj "\x27subject\x27", [])
          | some subject =>
            match dictGet kvs "body" with
            | none => (errObj "\x27body\x27", [])
            | some body =>
                (m.send_email toAddr subject body, [.sendEmail toAddr subject body])
    | other => (errObj (pySubscriptMsg other), [])
  else if jsonStrEq function_name "get_tasks" then
    match arguments with
    | .obj kvs =>
        let planId := dictGet kvs "plan_id"
        let filt := dictGet kvs "filter"
        (m.get_tasks planId filt, [.getTasks planId filt])
    | other => (errObj (pyNoGetMsg other), [])
  else if jsonStrEq function_name "create_task" then
    match arguments with
    | .obj kvs =>
        match dictGet kvs "plan_id" with
        | none => (errObj "\x27plan_id\x27", [])
        | some planId =>
          match dictGet kvs "title" with
          | none => (errObj "\x27title\x27", [])
          | some title =>
            let descr := dictGet kvs "description"
            let dueDate := dictGet kvs "due_date"
            (m.create_task planId title descr dueDate,
             [.createTask planId title descr dueDate])
    | other => (errObj (pySubscriptMsg other), [])
  else
    (errObj ("Unknown function: " ++ pyFormat function_name), [])

/-- One entry of `PersonalAssistant.tools`. -/
structure ToolDescriptor where
  name : String
  description : String
  parameters : List (String × String)

/-- `PersonalAssistant.tools`: the fixed catalog of four tools. -/
def tools : List ToolDescriptor :=
  [⟨"get_emails",
    "Retrieve emails from Outlook inbox. Returns list of recent emails.",
    [("limit", "Number of emails to retrieve (default 10)"),
     ("filter", "Filter criteria: \x27unread\x27 for unread emails, \x27from:email@example.com\x27 for specific sender")]⟩,
   ⟨"send_email",
    "Send an email via Outlook",
    [("to", "Recipient email address (required)"),
     ("subject", "Email subject (required)"),
     ("body", "Email body content (required)")]⟩,
   ⟨"get_tasks",
    "Retrieve tasks from Microsoft Planner",
    [("plan_id", "Planner plan ID (optional, will use first plan if not provided)"),
     ("filter", "Filter: \x27incomplete\x27 for incomplete tasks, \x27due_soon\x27 for tasks due soon")]⟩,
   ⟨"create_task",
    "Create a new task in Microsoft Planner",
    [("plan_id", "Planner plan ID (required)"),
     ("title", "Task title (required)"),
     ("description", "Task description (optional)"),
     ("due_date", "Due date in YYYY-MM-DD format (optional)")]⟩]

/-- `PersonalAssistant._create_system_prompt`: the tool list rendered one
per line, spliced into the fixed prompt template. -/
def create_system_prompt : String :=
  let tools_desc :=
    String.intercalate "\n" (tools.map fun t => "- " ++ t.name ++ ": " ++ t.description)
  "You are a helpful personal assistant with access to Microsoft 365.\n" ++
  "You can help manage emails and Planner tasks.\n\n" ++
  "Available tools:\n" ++ tools_desc ++ "\n\n" ++
  "When you need to use a tool, respond ONLY with a JSON object in this format:\n" ++
  "\x7b\"tool\": \"tool_name\", \"parameters\": \x7b\"param1\": \"value1\", \"param2\": \"value2\"\x7d\x7d\n\n" ++
  "If you don\x27t need a tool, respond normally in a friendly, concise way.\n" ++
  "Format information clearly for CLI display.\n\n" ++
  "Examples:\n" ++
  "User: \"Show me my emails\"\n" ++
  "Assistant: \x7b\"tool\": \"get_emails\", \"parameters\": \x7b\"limit\": 10\x7d\x7d\n\n" ++
  "User: \"What\x27s the weather?\"\n" ++
  "Assistant: I can help you with emails and tasks from Microsoft 365, but I don\x27t have access to weather information.\n"

/-- The system message freshly constructed for every completion call. -/
def systemMessage : Message :=
  ⟨"system", create_system_prompt⟩

/-- The `PersonalAssistant`'s external collaborators: the Ollama chat
endpoint (`_call_ollama`, which raises on a non-200 status — modelled by
`Except.error`), the M365 client, and the `json` stdlib (`loads` returns
`none` where `json.loads` raises `JSONDecodeError`; `dumps` models
`json.dumps(·, indent=2)`). -/
structure Agent where
  ollama : List Message → Except String String
  m365 : M365
  loads : String → Option Json
  dumps : Json → String

/-- Everything one `process_request` turn produces: the returned text (or
the propagated exception), the conversation history after the turn, the
M365 calls made, and the message lists sent to the completion endpoint. -/
structure TurnOutcome where
  result : Except String String
  history : List Message
  apiCalls : List ApiEvent
  completionCalls : List (List Message)

/-- The fixed instruction appended after the serialized tool result. -/
def summarizeSuffix : String :=
  "\n\nPlease summarize this information in a clear, friendly way for the user."

/-- `PersonalAssistant.process_request` on an incoming history `hist`.
`json.loads(response_text)` succeeds whenever `_is_tool_call` returned
`True` (both parse the same text modulo surrounding whitespace, which
`json.loads` ignores), so the `except json.JSONDecodeError` fallthrough to
plain-text handling corresponds to the `none` branch; a non-dict parse
value makes `tool_call.get` raise an uncaught `AttributeError`. -/
def process_request (a : Agent) (hist : List Message) (user_input : String) : TurnOutcome :=
  let hist1 := hist ++ [⟨"user", user_input⟩]
  let msgs1 := systemMessage :: hist1
  match a.ollama msgs1 with
  | .error e => ⟨.error e, hist1, [], [msgs1]⟩
  | .ok response_text =>
    if is_tool_call a.loads response_text then
      match a.loads (pyStrip response_text) with
      | some (.obj kvs) =>
        let tool_name := (dictGet kvs "tool").getD .null
        let parameters := (dictGet kvs "parameters").getD (.obj [])
        let tr := execute_tool a.m365 tool_name parameters
        let hist2 := hist1 ++
          [⟨"assistant", "[Used tool: " ++ pyFormat tool_name ++ "]"⟩,
           ⟨"user", "Tool result: " ++ a.dumps tr.1 ++ summarizeSuffix⟩]
        let msgs2 := systemMessage :: hist2
        match a.ollama msgs2 with
        | .error e => ⟨.error e, hist2, tr.2, [msgs1, msgs2]⟩
        | .ok final_response =>
            ⟨.ok final_response, hist2 ++ [⟨"assistant", final_response⟩],
             tr.2, [msgs1, msgs2]⟩
      | some other => ⟨.error (pyNoGetMsg other), hist1, [], [msgs1]⟩
      | none => ⟨.ok response_text, hist1 ++ [⟨"assistant", response_text⟩], [], [msgs1]⟩
    else
      ⟨.ok response_text, hist1 ++ [⟨"assistant", response_text⟩], [], [msgs1]⟩

/-!
The `M365Client` internals (`m365_client.py`), modelled against HTTP
oracles.  A `requests.*` call either raises a transport-level exception
(`HttpOutcome.err` — `m365_client.py` contains no `try`/`except` around its
HTTP calls, so such an exception propagates out of the client method,
modelled as `Except.error`) or yields a response with a status code and an
already-decoded body of the shape the Graph API documents for that
endpoint (`response.json().get('value', [])` is the body list; a missing
`value` key is the empty list).  The second component of each result logs
the HTTP requests issued, in order.
-/

/-- Outcome of one `requests.*` call: a raised transport exception, or a
response with status code and decoded body. -/
inductive HttpOutcome (α : Type) where
  | err (msg : String)
  | resp (status : Nat) (body : α)

/-- One Graph-API email, as read by `get_emails` from the response body. -/
structure EmailRec where
  subject : String
  fromAddress : String
  receivedDateTime : String
  bodyPreview : String
  isRead : Bool

/-- One Graph-API Planner plan (only its `id` is read). -/
structure PlanRec where
  id : String

/-- One Graph-API Planner task, as read by `get_tasks`. -/
structure TaskRec where
  id : String
  title : String
  percentComplete : Int
  dueDateTime : Option String
  priority : Option Int

/-- One Graph-API Planner bucket (only its `id` is read). -/
structure BucketRec where
  id : String

/-- The body of a successful task-creation response (fields read). -/
structure CreatedTask where
  id : String
  title : String

/-- One HTTP request issued by the `M365Client`, with the data that the
client put into it. -/
inductive GraphReq where
  | getMessages (top : Int) (filter : Option String)
  | sendMail (toAddr subject body : String)
  | getPlans
  | getPlanTasks (planId : String)
  | getBuckets (planId : String)
  | postTask (planId bucketId title : String) (dueDateTime : Option String)
  | patchDetails (taskId description : String)

/-- `None`-able string rendered to JSON (`null` for `None`). -/
def optStrJson : Option String → Json
  | none => .null
  | some s => .str s

/-- Python truthiness test `not plan_id` on an optional string (`None` and
the empty string are falsy). -/
def pyFalsyStr : Option String → Bool
  | none => true
  | some s => s = ""

namespace M365Client

/-- The `$filter` query parameter built by `get_emails`: set only when
`filter_str` is truthy and matches one of the two recognized shapes. -/
def emailFilterParam : Option String → Option String
  | none => none
  | some f =>
      if f = "" then none
      else if f = "unread" then some "isRead eq false"
      else if strStartsWith f "from:" then
        some ("from/emailAddress/address eq \x27" ++
              pyStrip ((f.splitOn "from:").getD 1 "") ++ "\x27")
      else none

/-- The per-email summary dict built by `get_emails`
(`bodyPreview` truncated to 100 characters). -/
def emailSummary (e : EmailRec) : Json :=
  .obj [("subject", .str e.subject),
        ("from", .str e.fromAddress),
        ("received", .str e.receivedDateTime),
        ("preview", .str (String.mk (e.bodyPreview.data.take 100))),
        ("is_read", .bool e.isRead)]

/-- `M365Client.get_emails`: one GET against `/me/messages`; 200 maps the
body to `{count, emails}`, any other status becomes an error dict. -/
def get_emails (o : HttpOutcome (List EmailRec)) (limit : Int)
    (filter_str : Option String) : Except String Json × List GraphReq :=
  let req := GraphReq.getMessages limit (emailFilterParam filter_str)
  match o with
  | .err e => (.error e, [req])
  | .resp status emails =>
      if status = 200 then
        (.ok (.obj [("count", .num (emails.length : Int)),
                    ("emails", .arr (emails.map emailSummary))]), [req])
      else
        (.ok (errObj ("Failed to retrieve emails: " ++ toString status)), [req])

/-- `M365Client.send_email`: one POST against `/me/sendMail`; 202 is
success, any other status becomes an error dict. -/
def send_email (o : HttpOutcome Unit) (toAddr subject body : String) :
    Except String Json × List GraphReq :=
  let req := GraphReq.sendMail toAddr subject body
  match o with
  | .err e => (.error e, [req])
  | .resp status _ =>
      if status = 202 then
        (.ok (.obj [("status", .str "success"),
                    ("message", .str ("Email sent to " ++ toAddr))]), [req])
      else
        (.ok (errObj ("Failed to send email: " ++ toString status)), [req])

/-- The per-task summary dict built by `get_tasks`
(`priority` defaulting to 5, `due_date` to `null`). -/
def taskSummary (t : TaskRec) : Json :=
  .obj [("id", .str t.id),
        ("title", .str t.title),
        ("percent_complete", .num t.percentComplete),
        ("due_date", optStrJson t.dueDateTime),
        ("priority", .num (t.priority.getD 5))]

/-- The success dict built by `get_tasks` (count taken after filtering). -/
def tasksResult (planId : String) (ts : List TaskRec) : Json :=
  .obj [("count", .num (ts.length : Int)),
        ("plan_id", .str planId),
        ("tasks", .arr (ts.map taskSummary))]

/-- Second half of `M365Client.get_tasks`: GET the plan's tasks, apply the
`incomplete` post-filter client-side, and shape the result.  `log` carries
the requests already issued by plan resolution. -/
def get_tasks_from_plan (tasksResp : String → HttpOutcome (List TaskRec))
    (planId : String) (filter_str : Option String) (log : List GraphReq) :
    Except String Json × List GraphReq :=
  let log := log ++ [GraphReq.getPlanTasks planId]
  match tasksResp planId with
  | .err e => (.error e, log)
  | .resp status tasks =>
      if status = 200 then
        let tasks :=
          if filter_str = some "incomplete" then
            tasks.filter fun t => t.percentComplete < 100
          else tasks
        (.ok (tasksResult planId tasks), log)
      else
        (.ok (errObj ("Failed to retrieve tasks: " ++ toString status)), log)

/-- First half of `M365Client.get_tasks` when `plan_id` is falsy: list the
plans and use the first one. -/
def get_tasks_resolve (plansResp : HttpOutcome (List PlanRec))
    (tasksResp : String → HttpOutcome (List TaskRec))
    (filter_str : Option String) : Except String Json × List GraphReq :=
  match plansResp with
  | .err e => (.error e, [.getPlans])
  | .resp status plans =>
      if status ≠ 200 then (.ok (errObj "Failed to retrieve plans"), [.getPlans])
      else
        match plans with
        | [] => (.ok (errObj "No plans found"), [.getPlans])
        | p :: _ => get_tasks_from_plan tasksResp p.id filter_str [.getPlans]

/-- `M365Client.get_tasks`: `if not plan_id` (Python truthiness: `None` or
empty string) triggers plan resolution, otherwise the given plan is used
directly. -/
def get_tasks (plansResp : HttpOutcome (List PlanRec))
    (tasksResp : String → HttpOutcome (List TaskRec))
    (plan_id : Option String) (filter_str : Option String) :
    Except String Json × List GraphReq :=
  match plan_id with
  | none => get_tasks_resolve plansResp tasksResp filter_str
  | some pid =>
      if pid = "" then get_tasks_resolve plansResp tasksResp filter_str
      else get_tasks_from_plan tasksResp pid filter_str []

/-- The success dict built by `create_task` from the creation response. -/
def createSuccess (t : CreatedTask) : Json :=
  .obj [("status", .str "success"),
        ("task_id", .str t.id),
        ("title", .str t.title)]

/-- `M365Client.create_task`: GET the plan's buckets (non-200 or an empty
bucket list is an error dict, issued before any POST); POST the task with
the first bucket's id (201 is success); `if description:` (truthy) a PATCH
against the task's details follows, whose response is never inspected —
only a transport-level exception from it can escape. -/
def create_task (bucketsResp : HttpOutcome (List BucketRec))
    (createResp : HttpOutcome CreatedTask) (patchResp : HttpOutcome Unit)
    (plan_id title : String) (description due_date : Option String) :
    Except String Json × List GraphReq :=
  let log0 := [GraphReq.getBuckets plan_id]
  match bucketsResp with
  | .err e => (.error e, log0)
  | .resp bstatus buckets =>
    if bstatus ≠ 200 then (.ok (errObj "Failed to retrieve buckets"), log0)
    else
      match buckets with
      | [] => (.ok (errObj "No buckets found in plan"), log0)
      | b :: _ =>
        let dueDateTime :=
          match due_date with
          | some d => if d = "" then none else some (d ++ "T00:00:00Z")
          | none => none
        let log1 := log0 ++ [GraphReq.postTask plan_id b.id title dueDateTime]
        match createResp with
        | .err e => (.error e, log1)
        | .resp cstatus task =>
          if cstatus = 201 then
            match description with
            | some d =>
              if d = "" then (.ok (createSuccess task), log1)
              else
                let log2 := log1 ++ [GraphReq.patchDetails task.id d]
                match patchResp with
                | .err e => (.error e, log2)
                | .resp _ _ => (.ok (createSuccess task), log2)
            | none => (.ok (createSuccess task), log1)
          else
            (.ok (errObj ("Failed to create task: " ++ toString cstatus)), log1)

end M365Client

/-- The four tool names `execute_tool` dispatches on. -/
def supportedTools : List String :=
  ["get_emails", "send_email", "get_tasks", "create_task"]

/-- Required keys present in the `parameters` dict for a directive to reach
its client call (`execute_tool` reads `to`/`subject`/`body` and
`plan_id`/`title` by subscript; the other two tools only use `.get`). -/
def requiredArgsOk (name : String) (kvs : List (String × Json)) : Bool :=
  if name = "send_email" then
    (dictGet kvs "to").isSome && (dictGet kvs "subject").isSome &&
      (dictGet kvs "body").isSome
  else if name = "create_task" then
    (dictGet kvs "plan_id").isSome && (dictGet kvs "title").isSome
  else true

/-- Which client operation an `ApiEvent` belongs to. -/
def eventMatches (name : String) (e : ApiEvent) : Bool :=
  match e with
  | .getEmails _ _ => name = "get_emails"
  | .sendEmail _ _ _ => name = "send_email"
  | .getTasks _ _ => name = "get_tasks"
  | .createTask _ _ _ _ => name = "create_task"

/-- A trivial client used by concrete witness instances. -/
def wM365 : M365 :=
  ⟨fun _ _ => .null, fun _ _ _ => .null, fun _ _ => .null, fun _ _ _ _ => .null⟩

/-- A concrete agent whose first completion emits a `get_tasks` directive
and whose second completion answers `done`. -/
def wToolAgent : Agent :=
  ⟨fun msgs => if msgs.length ≤ 2 then .ok "\x7b\"tool\": \"get_tasks\"\x7d" else .ok "done",
   wM365, fun _ => some (.obj [("tool", .str "get_tasks")]), fun _ => "r"⟩

/-- A concrete agent whose first completion names an unsupported tool. -/
def wUnknownAgent : Agent :=
  ⟨fun msgs => if msgs.length ≤ 2 then .ok "\x7b\"tool\": \"foo\"\x7d" else .ok "ok2",
   wM365, fun _ => some (.obj [("tool", .str "foo")]), fun _ => "r"⟩

/-!
Claim theorems.
-/

/-- C1: a completion response `R` is classified as a candidate tool call by
`_is_tool_call` iff, after trimming whitespace, it starts with an opening
brace and ends with a closing brace and parses as JSON to a value
containing a `tool` key; any parse failure or absence of the key makes it
plain conversational text.  The hypothesis states that `loads` behaves like
`json.loads` on brace-led input (a successful parse yields a dict). -/
theorem C1_tool_call_classification (loads : String → Option Json) (R : String)
    (hgram : ∀ d, loads (pyStrip R) = some d → strStartsWith (pyStrip R) "\x7b" →
       ∃ kvs, d = Json.obj kvs) :
    is_tool_call loads R = true ↔
      (strStartsWith (pyStrip R) "\x7b" ∧ strEndsWith (pyStrip R) "\x7d" ∧
       ∃ kvs, loads (pyStrip R) = some (Json.obj kvs) ∧
         (kvs.any fun p => p.1 = "tool") = true) := by
  unfold is_tool_call
  by_cases hs : strStartsWith (pyStrip R) "\x7b"
  · by_cases he : strEndsWith (pyStrip R) "\x7d"
    · simp only [hs, he, Bool.and_self, if_true]
      cases h : loads (pyStrip R) with
      | none => simp [hs, he, h]
      | some d =>
        obtain ⟨kvs, rfl⟩ := hgram d h hs
        simp [pyIn, hs, he, h]
    · simp [hs, he]
  · simp [hs]

/-- Witness for C1 at a concrete parse function and response text. -/
theorem C1_witness :
    is_tool_call (fun _ => some (Json.obj [("tool", Json.null)])) "\x7bx\x7d" = true ↔
      (strStartsWith (pyStrip "\x7bx\x7d") "\x7b" ∧
       strEndsWith (pyStrip "\x7bx\x7d") "\x7d" ∧
       ∃ kvs, (fun _ : String => some (Json.obj [("tool", Json.null)]))
           (pyStrip "\x7bx\x7d") = some (Json.obj kvs) ∧
         (kvs.any fun p => p.1 = "tool") = true) :=
  C1_tool_call_classification (fun _ => some (Json.obj [("tool", Json.null)])) "\x7bx\x7d"
    (fun _d h _ => ⟨[("tool", Json.null)], (Option.some.inj h).symm⟩)

/-- C8: a completion response classified as plain text is returned
verbatim, and exactly one assistant message (holding that text) is
appended to the history beyond the user message. -/
theorem C8_plain_text_turn (a : Agent) (hist : List Message) (u R : String)
    (h1 : a.ollama (systemMessage :: (hist ++ [⟨"user", u⟩])) = .ok R)
    (h2 : is_tool_call a.loads R = false) :
    process_request a hist u =
      ⟨.ok R, hist ++ [⟨"user", u⟩, ⟨"assistant", R⟩], [],
       [systemMessage :: (hist ++ [⟨"user", u⟩])]⟩ := by
  unfold process_request
  simp [h1, h2]

/-- Witness for C8: a concrete agent whose completion answers plain text. -/
theorem C8_witness :
    process_request
      ⟨fun _ => .ok "hello", ⟨fun _ _ => .null, fun _ _ _ => .null,
        fun _ _ => .null, fun _ _ _ _ => .null⟩, fun _ => none, fun _ => ""⟩
      [] "hi" =
      ⟨.ok "hello", [⟨"user", "hi"⟩, ⟨"assistant", "hello"⟩], [],
       [systemMessage :: ([] ++ [⟨"user", "hi"⟩])]⟩ := by
  have := C8_plain_text_turn
    ⟨fun _ => .ok "hello", ⟨fun _ _ => .null, fun _ _ _ => .null,
      fun _ _ => .null, fun _ _ _ _ => .null⟩, fun _ => none, fun _ => ""⟩
    [] "hi" "hello" (by rfl) (by decide)
  simpa using this

/-- C10: the incoming user message is appended to the history before the
first completion call, so when that call raises, the turn aborts with the
user message permanently in the history — no rollback happens. -/
theorem C10_user_message_kept_on_failure (a : Agent) (hist : List Message)
    (u e : String)
    (h1 : a.ollama (systemMessage :: (hist ++ [⟨"user", u⟩])) = .error e) :
    process_request a hist u =
      ⟨.error e, hist ++ [⟨"user", u⟩], [],
       [systemMessage :: (hist ++ [⟨"user", u⟩])]⟩ := by
  unfold process_request
  simp [h1]

/-- Witness for C10: a concrete agent whose completion endpoint raises. -/
theorem C10_witness :
    process_request
      ⟨fun _ => .error "Ollama API error: 500", ⟨fun _ _ => .null,
        fun _ _ _ => .null, fun _ _ => .null, fun _ _ _ _ => .null⟩,
       fun _ => none, fun _ => ""⟩
      [] "hi" =
      ⟨.error "Ollama API error: 500", [⟨"user", "hi"⟩], [],
       [systemMessage :: ([] ++ [⟨"user", "hi"⟩])]⟩ := by
  have := C10_user_message_kept_on_failure
    ⟨fun _ => .error "Ollama API error: 500", ⟨fun _ _ => .null,
      fun _ _ _ => .null, fun _ _ => .null, fun _ _ _ _ => .null⟩,
     fun _ => none, fun _ => ""⟩
    [] "hi" "Ollama API error: 500" (by rfl)
  simpa using this

/-- Membership helper: a concatenation of two system-free message lists is
system-free. -/
theorem noSys_append (xs ys : List Message)
    (hx : ∀ m ∈ xs, m.role ≠ "system") (hy : ∀ m ∈ ys, m.role ≠ "system") :
    ∀ m ∈ xs ++ ys, m.role ≠ "system" := by
  intro m hm
  rcases List.mem_append.mp hm with h | h
  exacts [hx m h, hy m h]

/-- C9: every completion call made during a turn receives exactly one
freshly constructed system-prompt message followed by the conversation
history at that moment, and no system message is ever stored in the
history itself. -/
theorem C9_system_prompt_invariant (a : Agent) (hist : List Message) (u : String)
    (hsys : ∀ m ∈ hist, m.role ≠ "system") :
    (∀ l ∈ (process_request a hist u).completionCalls,
       ∃ h, l = systemMessage :: h ∧
         h <+: (process_request a hist u).history ∧
         ∀ m ∈ h, m.role ≠ "system") ∧
    (∀ m ∈ (process_request a hist u).history, m.role ≠ "system") := by
  have husr : ∀ m ∈ hist ++ [(⟨"user", u⟩ : Message)], m.role ≠ "system" := by
    refine noSys_append _ _ hsys ?_
    intro m hm
    rcases List.mem_singleton.mp hm with rfl
    simp
  simp only [process_request]
  cases h1 : a.ollama (systemMessage :: (hist ++ [⟨"user", u⟩])) with
  | error e =>
      dsimp only
      refine ⟨?_, husr⟩
      intro l hl
      rcases List.mem_singleton.mp hl with rfl
      exact ⟨_, rfl, List.prefix_rfl, husr⟩
  | ok R =>
      dsimp only
      by_cases ht : is_tool_call a.loads R
      · simp only [ht, if_true]
        cases hld : a.loads (pyStrip R) with
        | none =>
            dsimp only
            refine ⟨?_, ?_⟩
            · intro l hl
              rcases List.mem_singleton.mp hl with rfl
              exact ⟨_, rfl, List.prefix_append _ _, husr⟩
            · refine noSys_append _ _ husr ?_
              intro m hm
              rcases List.mem_singleton.mp hm with rfl
              simp
        | some d =>
            cases d with
            | obj kvs =>
                dsimp only
                have hins : ∀ m ∈ (hist ++ [(⟨"user", u⟩ : Message)]) ++
                    [⟨"assistant", "[Used tool: " ++
                        pyFormat ((dictGet kvs "tool").getD .null) ++ "]"⟩,
                     ⟨"user", "Tool result: " ++
                        a.dumps (execute_tool a.m365
                          ((dictGet kvs "tool").getD .null)
                          ((dictGet kvs "parameters").getD (.obj []))).1 ++
                        summarizeSuffix⟩], m.role ≠ "system" := by
                  refine noSys_append _ _ husr ?_
                  intro m hm
                  rcases List.mem_cons.mp hm with rfl | hm
                  · simp
                  · rcases List.mem_singleton.mp hm with rfl
                    simp
                cases h2 : a.ollama (systemMessage ::
                    ((hist ++ [⟨"user", u⟩]) ++
                     [⟨"assistant", "[Used tool: " ++
                        pyFormat ((dictGet kvs "tool").getD .null) ++ "]"⟩,
                      ⟨"user", "Tool result: " ++
                        a.dumps (execute_tool a.m365
                          ((dictGet kvs "tool").getD .null)
                          ((dictGet kvs "parameters").getD (.obj []))).1 ++
                        summarizeSuffix⟩])) with
                | error e2 =>
                    dsimp only
                    refine ⟨?_, hins⟩
                    intro l hl
                    rcases List.mem_cons.mp hl with rfl | hl
                    · exact ⟨_, rfl, List.prefix_append _ _, husr⟩
                    · rcases List.mem_singleton.mp hl with rfl
                      exact ⟨_, rfl, List.prefix_rfl, hins⟩
                | ok F =>
                    dsimp only
                    refine ⟨?_, ?_⟩
                    · intro l hl
                      rcases List.mem_cons.mp hl with rfl | hl
                      · exact ⟨_, rfl,
                          (List.prefix_append _ _).trans (List.prefix_append _ _), husr⟩
                      · rcases List.mem_singleton.mp hl with rfl
                        exact ⟨_, rfl, List.prefix_append _ _, hins⟩
                    · refine noSys_append _ _ hins ?_
                      intro m hm
                      rcases List.mem_singleton.mp hm with rfl
                      simp
            | null =>
                dsimp only
                refine ⟨?_, husr⟩
                intro l hl
                rcases List.mem_singleton.mp hl with rfl
                exact ⟨_, rfl, List.prefix_rfl, husr⟩
            | bool b =>
                dsimp only
                refine ⟨?_, husr⟩
                intro l hl
                rcases List.mem_singleton.mp hl with rfl
                exact ⟨_, rfl, List.prefix_rfl, husr⟩
            | num n =>
                dsimp only
                refine ⟨?_, husr⟩
                intro l hl
                rcases List.mem_singleton.mp hl with rfl
                exact ⟨_, rfl, List.prefix_rfl, husr⟩
            | str s =>
                dsimp only
                refine ⟨?_, husr⟩
                intro l hl
                rcases List.mem_singleton.mp hl with rfl
                exact ⟨_, rfl, List.prefix_rfl, husr⟩
            | arr xs =>
                dsimp only
                refine ⟨?_, husr⟩
                intro l hl
                rcases List.mem_singleton.mp hl with rfl
                exact ⟨_, rfl, List.prefix_rfl, husr⟩
      · simp only [ht, if_false]
        refine ⟨?_, ?_⟩
        · intro l hl
          rcases List.mem_singleton.mp hl with rfl
          exact ⟨_, rfl, List.prefix_append _ _, husr⟩
        · refine noSys_append _ _ husr ?_
          intro m hm
          rcases List.mem_singleton.mp hm with rfl
          simp

/-- Witness for C9: the invariant evaluated for a concrete plain-text
turn starting from the empty history. -/
theorem C9_witness :
    (∀ l ∈ (process_request
        ⟨fun _ => .ok "hey", wM365, fun _ => none, fun _ => ""⟩
        [] "hi").completionCalls,
       ∃ h, l = systemMessage :: h ∧
         h <+: (process_request
           ⟨fun _ => .ok "hey", wM365, fun _ => none, fun _ => ""⟩
           [] "hi").history ∧
         ∀ m ∈ h, m.role ≠ "system") ∧
    (∀ m ∈ (process_request
        ⟨fun _ => .ok "hey", wM365, fun _ => none, fun _ => ""⟩
        [] "hi").history, m.role ≠ "system") :=
  C9_system_prompt_invariant
    ⟨fun _ => .ok "hey", wM365, fun _ => none, fun _ => ""⟩
    [] "hi" (by intro m hm; cases hm)

/-- Dispatch helper: a supported tool name with its required arguments
present makes exactly one call, to the operation of that name. -/
theorem execute_tool_supported (m : M365) (name : String)
    (pkvs : List (String × Json)) (hsup : name ∈ supportedTools)
    (hargs : requiredArgsOk name pkvs = true) :
    ∃ ev, (execute_tool m (.str name) (.obj pkvs)).2 = [ev] ∧
      eventMatches name ev = true := by
  simp only [supportedTools, List.mem_cons, List.not_mem_nil, or_false] at hsup
  rcases hsup with rfl | rfl | rfl | rfl
  · refine ⟨.getEmails ((dictGet pkvs "limit").getD (.num 10))
        (dictGet pkvs "filter"), ?_, ?_⟩
    · simp [execute_tool, jsonStrEq]
    · simp [eventMatches]
  · simp only [requiredArgsOk, reduceIte, Bool.and_eq_true] at hargs
    obtain ⟨⟨h1, h2⟩, h3⟩ := hargs
    rcases Option.isSome_iff_exists.mp h1 with ⟨t, ht⟩
    rcases Option.isSome_iff_exists.mp h2 with ⟨sj, hsj⟩
    rcases Option.isSome_iff_exists.mp h3 with ⟨b, hb⟩
    refine ⟨.sendEmail t sj b, ?_, ?_⟩
    · simp [execute_tool, jsonStrEq, ht, hsj, hb]
    · simp [eventMatches]
  · refine ⟨.getTasks (dictGet pkvs "plan_id") (dictGet pkvs "filter"), ?_, ?_⟩
    · simp [execute_tool, jsonStrEq]
    · simp [eventMatches]
  · simp [requiredArgsOk] at hargs
    obtain ⟨h1, h2⟩ := hargs
    rcases Option.isSome_iff_exists.mp h1 with ⟨p, hp⟩
    rcases Option.isSome_iff_exists.mp h2 with ⟨t, ht⟩
    refine ⟨.createTask p t (dictGet pkvs "description")
        (dictGet pkvs "due_date"), ?_, ?_⟩
    · simp [execute_tool, jsonStrEq, hp, ht]
    · simp [eventMatches]


/-- C2: when the first completion response is a valid tool-call directive
naming a supported tool (with its required arguments present),
`process_request` makes exactly one call to the corresponding client
operation, appends exactly three messages after the user message — the
`[Used tool: <name>]` assistant marker, a user message carrying the
JSON-serialized tool result plus the summarization instruction, and the
final assistant message — and returns exactly the second completion's
text. -/
theorem C2_tool_turn (a : Agent) (hist : List Message) (u R F name : String)
    (kvs pkvs : List (String × Json))
    (h1 : a.ollama (systemMessage :: (hist ++ [⟨"user", u⟩])) = .ok R)
    (h0 : is_tool_call a.loads R = true)
    (h2 : a.loads (pyStrip R) = some (.obj kvs))
    (h3 : dictGet kvs "tool" = some (.str name))
    (hp : (dictGet kvs "parameters").getD (.obj []) = .obj pkvs)
    (hsup : name ∈ supportedTools)
    (hargs : requiredArgsOk name pkvs = true)
    (h6 : a.ollama (systemMessage :: ((hist ++ [⟨"user", u⟩]) ++
        [⟨"assistant", "[Used tool: " ++ name ++ "]"⟩,
         ⟨"user", "Tool result: " ++
            a.dumps (execute_tool a.m365 (.str name) (.obj pkvs)).1 ++
            summarizeSuffix⟩])) = .ok F) :
    ∃ ev, (execute_tool a.m365 (.str name) (.obj pkvs)).2 = [ev] ∧
      eventMatches name ev = true ∧
      process_request a hist u =
        ⟨.ok F,
         (hist ++ [⟨"user", u⟩]) ++
           [⟨"assistant", "[Used tool: " ++ name ++ "]"⟩,
            ⟨"user", "Tool result: " ++
               a.dumps (execute_tool a.m365 (.str name) (.obj pkvs)).1 ++
               summarizeSuffix⟩] ++
           [⟨"assistant", F⟩],
         [ev],
         [systemMessage :: (hist ++ [⟨"user", u⟩]),
          systemMessage :: ((hist ++ [⟨"user", u⟩]) ++
            [⟨"assistant", "[Used tool: " ++ name ++ "]"⟩,
             ⟨"user", "Tool result: " ++
                a.dumps (execute_tool a.m365 (.str name) (.obj pkvs)).1 ++
                summarizeSuffix⟩])]⟩ := by
  obtain ⟨ev, hev, hmatch⟩ := execute_tool_supported a.m365 name pkvs hsup hargs
  refine ⟨ev, hev, hmatch, ?_⟩
  simp only [process_request, h1]
  try dsimp only
  simp only [h0, if_true, h2]
  try dsimp only
  simp only [h3, hp, Option.getD_some, pyFormat]
  try simp only [h6]
  try dsimp only
  simp [hev, h6]

/-- Witness for C2: a concrete `get_tasks` tool turn from empty history. -/
theorem C2_witness :
    ∃ ev, (execute_tool wToolAgent.m365 (.str "get_tasks") (.obj [])).2 = [ev] ∧
      eventMatches "get_tasks" ev = true ∧
      process_request wToolAgent [] "hi" =
        ⟨.ok "done",
         ([] ++ [⟨"user", "hi"⟩]) ++
           [⟨"assistant", "[Used tool: " ++ "get_tasks" ++ "]"⟩,
            ⟨"user", "Tool result: " ++
               wToolAgent.dumps
                 (execute_tool wToolAgent.m365 (.str "get_tasks") (.obj [])).1 ++
               summarizeSuffix⟩] ++
           [⟨"assistant", "done"⟩],
         [ev],
         [systemMessage :: ([] ++ [⟨"user", "hi"⟩]),
          systemMessage :: (([] ++ [⟨"user", "hi"⟩]) ++
            [⟨"assistant", "[Used tool: " ++ "get_tasks" ++ "]"⟩,
             ⟨"user", "Tool result: " ++
                wToolAgent.dumps
                  (execute_tool wToolAgent.m365 (.str "get_tasks") (.obj [])).1 ++
                summarizeSuffix⟩])]⟩ :=
  C2_tool_turn wToolAgent [] "hi" "\x7b\"tool\": \"get_tasks\"\x7d" "done" "get_tasks"
    [("tool", .str "get_tasks")] []
    (by rfl) (by decide) (by rfl) (by rfl) (by rfl)
    (by simp [supportedTools]) (by rfl) (by rfl)

/-- C4: a tool-call directive naming an unsupported tool `name` yields
`{"error": "Unknown function: <name>"}` from `execute_tool` with no client
call at all, and `process_request` still performs the full tool
round-trip — marker message, tool-result-as-user message, second
completion — instead of falling back to plain-text handling. -/
theorem C4_unknown_tool_roundtrip (a : Agent) (hist : List Message)
    (u R F name : String) (kvs : List (String × Json)) (params : Json)
    (h1 : a.ollama (systemMessage :: (hist ++ [⟨"user", u⟩])) = .ok R)
    (h0 : is_tool_call a.loads R = true)
    (h2 : a.loads (pyStrip R) = some (.obj kvs))
    (h3 : dictGet kvs "tool" = some (.str name))
    (hp : (dictGet kvs "parameters").getD (.obj []) = params)
    (hn : name ∉ supportedTools)
    (h6 : a.ollama (systemMessage :: ((hist ++ [⟨"user", u⟩]) ++
        [⟨"assistant", "[Used tool: " ++ name ++ "]"⟩,
         ⟨"user", "Tool result: " ++
            a.dumps (errObj ("Unknown function: " ++ name)) ++
            summarizeSuffix⟩])) = .ok F) :
    execute_tool a.m365 (.str name) params =
      (errObj ("Unknown function: " ++ name), []) ∧
    process_request a hist u =
      ⟨.ok F,
       (hist ++ [⟨"user", u⟩]) ++
         [⟨"assistant", "[Used tool: " ++ name ++ "]"⟩,
          ⟨"user", "Tool result: " ++
             a.dumps (errObj ("Unknown function: " ++ name)) ++
             summarizeSuffix⟩] ++
         [⟨"assistant", F⟩],
       [],
       [systemMessage :: (hist ++ [⟨"user", u⟩]),
        systemMessage :: ((hist ++ [⟨"user", u⟩]) ++
          [⟨"assistant", "[Used tool: " ++ name ++ "]"⟩,
           ⟨"user", "Tool result: " ++
              a.dumps (errObj ("Unknown function: " ++ name)) ++
              summarizeSuffix⟩])]⟩ := by
  have hn4 : ¬(name = "get_emails") ∧ ¬(name = "send_email") ∧
      ¬(name = "get_tasks") ∧ ¬(name = "create_task") := by
    simpa [supportedTools, not_or] using hn
  obtain ⟨hn1, hn2, hn3, hn5⟩ := hn4
  have hex : execute_tool a.m365 (.str name) params =
      (errObj ("Unknown function: " ++ name), []) := by
    simp [execute_tool, jsonStrEq, hn1, hn2, hn3, hn5, pyFormat]
  refine ⟨hex, ?_⟩
  simp only [process_request, h1]
  try dsimp only
  simp only [h0, if_true, h2]
  try dsimp only
  simp only [h3, hp, Option.getD_some, pyFormat, hex]
  try simp only [h6]
  try dsimp only
  try simp [h6]

/-- Witness for C4: a concrete turn invoking unsupported tool `foo`. -/
theorem C4_witness :
    execute_tool wUnknownAgent.m365 (.str "foo") (.obj []) =
      (errObj ("Unknown function: " ++ "foo"), []) ∧
    process_request wUnknownAgent [] "hi" =
      ⟨.ok "ok2",
       ([] ++ [⟨"user", "hi"⟩]) ++
         [⟨"assistant", "[Used tool: " ++ "foo" ++ "]"⟩,
          ⟨"user", "Tool result: " ++
             wUnknownAgent.dumps (errObj ("Unknown function: " ++ "foo")) ++
             summarizeSuffix⟩] ++
         [⟨"assistant", "ok2"⟩],
       [],
       [systemMessage :: ([] ++ [⟨"user", "hi"⟩]),
        systemMessage :: (([] ++ [⟨"user", "hi"⟩]) ++
          [⟨"assistant", "[Used tool: " ++ "foo" ++ "]"⟩,
           ⟨"user", "Tool result: " ++
              wUnknownAgent.dumps (errObj ("Unknown function: " ++ "foo")) ++
              summarizeSuffix⟩])]⟩ :=
  C4_unknown_tool_roundtrip wUnknownAgent [] "hi" "\x7b\"tool\": \"foo\"\x7d"
    "ok2" "foo" [("tool", .str "foo")] (.obj [])
    (by rfl) (by decide) (by rfl) (by rfl) (by rfl)
    (by decide) (by rfl)

/-- C3 counterexample: a transport-level failure of the GET inside
`get_emails` propagates as a raised exception (the client has no
`try`/`except` around its HTTP calls), refuting the claim that every
remote outcome — including transport failure — yields an error value
without raising. -/
theorem C3_counterexample :
    (M365Client.get_emails (.err "ConnectionError") 10 none).1 =
      .error "ConnectionError" := rfl

/-- C3 (amended): for every non-success HTTP status, each client
operation returns an `{"error": ...}` value without raising; this covers
every status-check site in the four operations.  (Transport failures, by
contrast, propagate — see the counterexample.) -/
theorem C3_error_value_on_bad_status :
    (∀ (limit : Int) (fs : Option String) (s : Nat) (body : List EmailRec),
        s ≠ 200 →
        (M365Client.get_emails (.resp s body) limit fs).1 =
          .ok (errObj ("Failed to retrieve emails: " ++ toString s))) ∧
    (∀ (t sj b : String) (s : Nat), s ≠ 202 →
        (M365Client.send_email (.resp s ()) t sj b).1 =
          .ok (errObj ("Failed to send email: " ++ toString s))) ∧
    (∀ (tasksResp : String → HttpOutcome (List TaskRec)) (s : Nat)
        (plans : List PlanRec) (fs : Option String), s ≠ 200 →
        (M365Client.get_tasks (.resp s plans) tasksResp none fs).1 =
          .ok (errObj "Failed to retrieve plans")) ∧
    (∀ (plansResp : HttpOutcome (List PlanRec))
        (tasksResp : String → HttpOutcome (List TaskRec))
        (pid : String) (fs : Option String) (s : Nat) (ts : List TaskRec),
        pid ≠ "" → tasksResp pid = .resp s ts → s ≠ 200 →
        (M365Client.get_tasks plansResp tasksResp (some pid) fs).1 =
          .ok (errObj ("Failed to retrieve tasks: " ++ toString s))) ∧
    (∀ (createResp : HttpOutcome CreatedTask) (patchResp : HttpOutcome Unit)
        (pid title : String) (d dd : Option String) (s : Nat)
        (bks : List BucketRec), s ≠ 200 →
        (M365Client.create_task (.resp s bks) createResp patchResp
            pid title d dd).1 =
          .ok (errObj "Failed to retrieve buckets")) ∧
    (∀ (patchResp : HttpOutcome Unit) (pid title : String)
        (d dd : Option String) (s : Nat) (b : BucketRec)
        (bks : List BucketRec) (task : CreatedTask), s ≠ 201 →
        (M365Client.create_task (.resp 200 (b :: bks)) (.resp s task)
            patchResp pid title d dd).1 =
          .ok (errObj ("Failed to create task: " ++ toString s))) := by
  refine ⟨?_, ?_, ?_, ?_, ?_, ?_⟩
  · intro limit fs s body hs
    simp [M365Client.get_emails, hs]
  · intro t sj b s hs
    simp [M365Client.send_email, hs]
  · intro tasksResp s plans fs hs
    simp [M365Client.get_tasks, M365Client.get_tasks_resolve, hs]
  · intro plansResp tasksResp pid fs s ts hpid hresp hs
    simp [M365Client.get_tasks, M365Client.get_tasks_from_plan, hpid, hresp, hs]
  · intro createResp patchResp pid title d dd s bks hs
    simp [M365Client.create_task, hs]
  · intro patchResp pid title d dd s b bks task hs
    simp [M365Client.create_task, hs]

/-- Witness for C3 (amended), one concrete bad status per operation. -/
theorem C3_witness :
    (M365Client.get_emails (.resp 500 []) 10 none).1 =
      .ok (errObj ("Failed to retrieve emails: " ++ toString 500)) ∧
    (M365Client.send_email (.resp 400 ()) "a@b" "s" "b").1 =
      .ok (errObj ("Failed to send email: " ++ toString 400)) ∧
    (M365Client.get_tasks (.resp 403 []) (fun _ => .resp 200 []) none none).1 =
      .ok (errObj "Failed to retrieve plans") ∧
    (M365Client.get_tasks (.resp 200 []) (fun _ => .resp 404 [])
        (some "P1") none).1 =
      .ok (errObj ("Failed to retrieve tasks: " ++ toString 404)) ∧
    (M365Client.create_task (.resp 500 []) (.resp 201 ⟨"T", "X"⟩)
        (.resp 200 ()) "P1" "X" none none).1 =
      .ok (errObj "Failed to retrieve buckets") ∧
    (M365Client.create_task (.resp 200 [⟨"B1"⟩]) (.resp 400 ⟨"T", "X"⟩)
        (.resp 200 ()) "P1" "X" none none).1 =
      .ok (errObj ("Failed to create task: " ++ toString 400)) :=
  ⟨C3_error_value_on_bad_status.1 10 none 500 [] (by decide),
   C3_error_value_on_bad_status.2.1 "a@b" "s" "b" 400 (by decide),
   C3_error_value_on_bad_status.2.2.1 (fun _ => .resp 200 []) 403 [] none
     (by decide),
   C3_error_value_on_bad_status.2.2.2.1 (.resp 200 []) (fun _ => .resp 404 [])
     "P1" none 404 [] (by decide) rfl (by decide),
   C3_error_value_on_bad_status.2.2.2.2.1 (.resp 201 ⟨"T", "X"⟩) (.resp 200 ())
     "P1" "X" none none 500 [] (by decide),
   C3_error_value_on_bad_status.2.2.2.2.2 (.resp 200 ()) "P1" "X" none none
     400 ⟨"B1"⟩ [] ⟨"T", "X"⟩ (by decide)⟩

/-- C5: when the bucket listing of the target plan returns zero buckets,
`create_task` returns the error result and issues no task-creation POST —
the request log holds only the bucket GET. -/
theorem C5_create_task_no_buckets (createResp : HttpOutcome CreatedTask)
    (patchResp : HttpOutcome Unit) (pid title : String)
    (d dd : Option String) :
    M365Client.create_task (.resp 200 []) createResp patchResp pid title d dd =
      (.ok (errObj "No buckets found in plan"), [GraphReq.getBuckets pid]) := by
  simp [M365Client.create_task]

/-- Witness for C5 at a concrete plan and task payload. -/
theorem C5_witness :
    M365Client.create_task (.resp 200 []) (.resp 201 ⟨"T", "X"⟩) (.resp 200 ())
        "P1" "X" none none =
      (.ok (errObj "No buckets found in plan"), [GraphReq.getBuckets "P1"]) :=
  C5_create_task_no_buckets (.resp 201 ⟨"T", "X"⟩) (.resp 200 ()) "P1" "X"
    none none

/-- C6 counterexample: when the description PATCH fails at transport
level, `create_task` raises (the bare `requests.patch` call propagates),
so the success record is not returned — refuting "regardless of whether
the patch succeeds or fails". -/
theorem C6_counterexample :
    (M365Client.create_task (.resp 200 [⟨"B1"⟩]) (.resp 201 ⟨"T1", "X"⟩)
        (.err "ConnectionError") "P1" "X" (some "notes") none).1 =
      .error "ConnectionError" := rfl

/-- C6 (amended): when the create POST returns 201, any HTTP *status*
outcome of the description PATCH — success or failure alike — is ignored
and `{status: success, task_id, title}` is returned; only a transport-level
exception from the PATCH escapes (see the counterexample). -/
theorem C6_patch_status_never_surfaced (bks : List BucketRec) (b : BucketRec)
    (task : CreatedTask) (ps : Nat) (pid title d : String) (hd : d ≠ "")
    (dd : Option String) :
    (M365Client.create_task (.resp 200 (b :: bks)) (.resp 201 task)
        (.resp ps ()) pid title (some d) dd).1 =
      .ok (M365Client.createSuccess task) := by
  simp [M365Client.create_task, hd]

/-- Witness for C6 (amended): a failing PATCH status (500) not surfaced. -/
theorem C6_witness :
    (M365Client.create_task (.resp 200 [⟨"B1"⟩]) (.resp 201 ⟨"T1", "X"⟩)
        (.resp 500 ()) "P1" "X" (some "notes") none).1 =
      .ok (M365Client.createSuccess ⟨"T1", "X"⟩) :=
  C6_patch_status_never_surfaced [] ⟨"B1"⟩ ⟨"T1", "X"⟩ 500 "P1" "X" "notes"
    (by decide) none

/-- C7: with `plan_id` omitted, `get_tasks` resolves it to the first plan
of the plans listing (erroring when there are none), and the `incomplete`
filter is applied client-side as a post-filter keeping exactly the tasks
with `percentComplete < 100` — the task GET request itself carries no
filter, on both the resolved-plan and explicit-plan paths. -/
theorem C7_plan_resolution_and_incomplete_filter
    (plansResp : HttpOutcome (List PlanRec))
    (tasksResp : String → HttpOutcome (List TaskRec)) (fs : Option String) :
    (plansResp = .resp 200 [] →
       M365Client.get_tasks plansResp tasksResp none fs =
         (.ok (errObj "No plans found"), [.getPlans])) ∧
    (∀ p ps ts, plansResp = .resp 200 (p :: ps) →
       tasksResp p.id = .resp 200 ts →
       M365Client.get_tasks plansResp tasksResp none (some "incomplete") =
         (.ok (M365Client.tasksResult p.id
             (ts.filter fun t => t.percentComplete < 100)),
          [.getPlans, .getPlanTasks p.id])) ∧
    (∀ pid ts, pid ≠ "" → tasksResp pid = .resp 200 ts →
       M365Client.get_tasks plansResp tasksResp (some pid)
           (some "incomplete") =
         (.ok (M365Client.tasksResult pid
             (ts.filter fun t => t.percentComplete < 100)),
          [.getPlanTasks pid])) := by
  refine ⟨?_, ?_, ?_⟩
  · intro h
    simp [M365Client.get_tasks, M365Client.get_tasks_resolve, h]
  · intro p ps ts h1 h2
    simp [M365Client.get_tasks, M365Client.get_tasks_resolve,
          M365Client.get_tasks_from_plan, h1, h2]
  · intro pid ts hpid h2
    simp [M365Client.get_tasks, M365Client.get_tasks_from_plan, hpid, h2]

/-- Witness for C7 at concrete plans and tasks (one complete task filtered
out, one incomplete task kept). -/
theorem C7_witness :
    M365Client.get_tasks (.resp 200 []) (fun _ => .resp 200 []) none none =
      (.ok (errObj "No plans found"), [.getPlans]) ∧
    M365Client.get_tasks (.resp 200 [⟨"P1"⟩])
        (fun _ => .resp 200 [⟨"T1", "A", 100, none, none⟩,
                             ⟨"T2", "B", 50, none, some 3⟩])
        none (some "incomplete") =
      (.ok (M365Client.tasksResult "P1"
          ([⟨"T1", "A", 100, none, none⟩,
            (⟨"T2", "B", 50, none, some 3⟩ : TaskRec)].filter
            fun t => t.percentComplete < 100)),
       [.getPlans, .getPlanTasks "P1"]) ∧
    M365Client.get_tasks (.resp 200 [])
        (fun _ => .resp 200 [⟨"T1", "A", 100, none, none⟩,
                             ⟨"T2", "B", 50, none, some 3⟩])
        (some "P2") (some "incomplete") =
      (.ok (M365Client.tasksResult "P2"
          ([⟨"T1", "A", 100, none, none⟩,
            (⟨"T2", "B", 50, none, some 3⟩ : TaskRec)].filter
            fun t => t.percentComplete < 100)),
       [.getPlanTasks "P2"]) :=
  ⟨(C7_plan_resolution_and_incomplete_filter (.resp 200 [])
      (fun _ => .resp 200 []) none).1 rfl,
   (C7_plan_resolution_and_incomplete_filter (.resp 200 [⟨"P1"⟩])
      (fun _ => .resp 200 [⟨"T1", "A", 100, none, none⟩,
                           ⟨"T2", "B", 50, none, some 3⟩]) none).2.1
     ⟨"P1"⟩ [] [⟨"T1", "A", 100, none, none⟩, ⟨"T2", "B", 50, none, some 3⟩]
     rfl rfl,
   (C7_plan_resolution_and_incomplete_filter (.resp 200 [])
      (fun _ => .resp 200 [⟨"T1", "A", 100, none, none⟩,
                           ⟨"T2", "B", 50, none, some 3⟩]) none).2.2
     "P2" [⟨"T1", "A", 100, none, none⟩, ⟨"T2", "B", 50, none, some 3⟩]
     (by decide) rfl⟩
